import Mathlib

/-!
Shallow embedding of the cdes-m Python SDK (Acidni-LLC/cdes-m-sdk-python):
the pydantic entity model (`src/cdes_m/models.py`, `src/cdes_m/enums.py`) and
the FHIR R4 mapping engine (`src/cdes_m/fhir/__init__.py`).

Modelling conventions:
- `str` fields become `String`; `Optional[x]` becomes `Option x`.
- `UUID`, `date` and `datetime` values are carried as `String` (the mapping
  only ever interpolates them into strings via `str(...)` / `.isoformat()`,
  so the iso rendering itself is the value we carry).
- Python `float` values become `ℚ` (`Rat`); the built-in `float(...)` string
  parse is modelled by `pyFloat?` below, `None` standing for `ValueError`.
- Python truthiness tests on `Optional[str]` / `Optional[int]` fields
  (`if x:`) are modelled by `strTruthy` / `intTruthy` (empty string and 0
  are falsy).
- Raised exceptions become `Except MappingError`; the module-level
  `FHIR_AVAILABLE` flag is passed to each mapping function as the `avail`
  argument, and `check_fhir_available`'s `ImportError` is the
  `collaboratorUnavailable` error value.
- `Dict[str, float]` (the terpene profile) becomes an association list
  `List (String × ℚ)` preserving insertion order, which is what
  `dict.keys()` iterates in Python; `Dict[str, Any]` payloads that no
  mapping function reads are carried as opaque `Option String` blobs.
-/

namespace CdesM

/-! ## Enumerations (`src/cdes_m/enums.py`) -/

/-- `ProviderLicenseType(str, Enum)`: constructor names mirror the Python
member names, `value` the Python member values. -/
inductive ProviderLicenseType where
  | MD | DO | NP | PA | APRN | PHARMACIST | OTHER
deriving DecidableEq, Repr, Inhabited

def ProviderLicenseType.value : ProviderLicenseType → String
  | .MD => "md" | .DO => "do" | .NP => "np" | .PA => "pa"
  | .APRN => "aprn" | .PHARMACIST => "pharmacist" | .OTHER => "other"

/-- Python `enum` member `.name` attribute. -/
def ProviderLicenseType.pyName : ProviderLicenseType → String
  | .MD => "MD" | .DO => "DO" | .NP => "NP" | .PA => "PA"
  | .APRN => "APRN" | .PHARMACIST => "PHARMACIST" | .OTHER => "OTHER"

/-- `ConsumptionMethod(str, Enum)`. -/
inductive ConsumptionMethod where
  | INHALATION_SMOKE | INHALATION_VAPE | ORAL_EDIBLE | ORAL_TINCTURE
  | ORAL_CAPSULE | SUBLINGUAL | TOPICAL | TRANSDERMAL | SUPPOSITORY
deriving DecidableEq, Repr, Inhabited

def ConsumptionMethod.value : ConsumptionMethod → String
  | .INHALATION_SMOKE => "inhalation_smoke"
  | .INHALATION_VAPE => "inhalation_vape"
  | .ORAL_EDIBLE => "oral_edible"
  | .ORAL_TINCTURE => "oral_tincture"
  | .ORAL_CAPSULE => "oral_capsule"
  | .SUBLINGUAL => "sublingual"
  | .TOPICAL => "topical"
  | .TRANSDERMAL => "transdermal"
  | .SUPPOSITORY => "suppository"

/-- The Python expression `method.value.replace("_", " ").title()`,
evaluated per member. -/
def ConsumptionMethod.titleDisplay : ConsumptionMethod → String
  | .INHALATION_SMOKE => "Inhalation Smoke"
  | .INHALATION_VAPE => "Inhalation Vape"
  | .ORAL_EDIBLE => "Oral Edible"
  | .ORAL_TINCTURE => "Oral Tincture"
  | .ORAL_CAPSULE => "Oral Capsule"
  | .SUBLINGUAL => "Sublingual"
  | .TOPICAL => "Topical"
  | .TRANSDERMAL => "Transdermal"
  | .SUPPOSITORY => "Suppository"

/-- `RecommendationStatus(str, Enum)`. -/
inductive RecommendationStatus where
  | DRAFT | ACTIVE | COMPLETED | CANCELLED | ENTERED_IN_ERROR
deriving DecidableEq, Repr, Inhabited

def RecommendationStatus.value : RecommendationStatus → String
  | .DRAFT => "draft" | .ACTIVE => "active" | .COMPLETED => "completed"
  | .CANCELLED => "cancelled" | .ENTERED_IN_ERROR => "entered_in_error"

/-- `RecommendationIntent(str, Enum)`. -/
inductive RecommendationIntent where
  | PROPOSAL | PLAN | ORDER
deriving DecidableEq, Repr, Inhabited

def RecommendationIntent.value : RecommendationIntent → String
  | .PROPOSAL => "proposal" | .PLAN => "plan" | .ORDER => "order"

/-- `ConditionCategory(str, Enum)`. -/
inductive ConditionCategory where
  | CHRONIC_PAIN | ANXIETY | PTSD | INSOMNIA | NAUSEA | SEIZURES
  | MUSCLE_SPASMS | APPETITE_LOSS | GLAUCOMA | CANCER | HIV_AIDS
  | CROHNS | PARKINSONS | MS | ALS | OTHER
deriving DecidableEq, Repr, Inhabited

def ConditionCategory.value : ConditionCategory → String
  | .CHRONIC_PAIN => "chronic_pain" | .ANXIETY => "anxiety" | .PTSD => "ptsd"
  | .INSOMNIA => "insomnia" | .NAUSEA => "nausea" | .SEIZURES => "seizures"
  | .MUSCLE_SPASMS => "muscle_spasms" | .APPETITE_LOSS => "appetite_loss"
  | .GLAUCOMA => "glaucoma" | .CANCER => "cancer" | .HIV_AIDS => "hiv_aids"
  | .CROHNS => "crohns" | .PARKINSONS => "parkinsons" | .MS => "ms"
  | .ALS => "als" | .OTHER => "other"

/-- The Python expression `category.name.replace("_", " ").title()`,
evaluated per member (Python `str.title` capitalises the first letter of
each word and lowercases the rest, so e.g. `PTSD → Ptsd`). -/
def ConditionCategory.titleDisplay : ConditionCategory → String
  | .CHRONIC_PAIN => "Chronic Pain" | .ANXIETY => "Anxiety" | .PTSD => "Ptsd"
  | .INSOMNIA => "Insomnia" | .NAUSEA => "Nausea" | .SEIZURES => "Seizures"
  | .MUSCLE_SPASMS => "Muscle Spasms" | .APPETITE_LOSS => "Appetite Loss"
  | .GLAUCOMA => "Glaucoma" | .CANCER => "Cancer" | .HIV_AIDS => "Hiv Aids"
  | .CROHNS => "Crohns" | .PARKINSONS => "Parkinsons" | .MS => "Ms"
  | .ALS => "Als" | .OTHER => "Other"

/-- `ExperienceLevel(str, Enum)`. -/
inductive ExperienceLevel where
  | NAIVE | NOVICE | MODERATE | EXPERIENCED
deriving DecidableEq, Repr, Inhabited

/-- `ThcTolerance(str, Enum)`. -/
inductive ThcTolerance where
  | LOW | MODERATE | HIGH
deriving DecidableEq, Repr, Inhabited

/-- `SideEffect(str, Enum)`. -/
inductive SideEffect where
  | DRY_MOUTH | RED_EYES | DROWSINESS | ANXIETY | PARANOIA
  | DIZZINESS | HEADACHE | NAUSEA | INCREASED_APPETITE | OTHER
deriving DecidableEq, Repr, Inhabited

/-- `Severity(str, Enum)`: the closed set `{mild, moderate, severe}`. -/
inductive Severity where
  | MILD | MODERATE | SEVERE
deriving DecidableEq, Repr, Inhabited

def Severity.value : Severity → String
  | .MILD => "mild" | .MODERATE => "moderate" | .SEVERE => "severe"

/-- The Python expression `severity.value.title()`, evaluated per member. -/
def Severity.titleDisplay : Severity → String
  | .MILD => "Mild" | .MODERATE => "Moderate" | .SEVERE => "Severe"

/-! ## Python-semantics helpers

All string manipulation is done with structurally recursive functions over
`List Char` (rather than the `String` library functions, whose
well-founded recursion does not evaluate inside proofs); each helper is
the exact Python operation used by the source on the ASCII data the source
feeds it. -/

/-- ASCII lower-casing of one character (`str.lower` per character). -/
def pyLowerChar (c : Char) : Char :=
  if 'A' ≤ c && c ≤ 'Z' then Char.ofNat (c.toNat + 32) else c

/-- Python `s.lower()` on ASCII text. -/
def pyLower (s : String) : String := ⟨s.data.map pyLowerChar⟩

/-- The list form of Python `s.replace("mg", "")` (the only non-trivial
`replace` call in the mapping engine): scan left to right, deleting each
occurrence of `mg`. -/
def removeMgList : List Char → List Char
  | 'm' :: 'g' :: rest => removeMgList rest
  | c :: rest => c :: removeMgList rest
  | [] => []

/-- Python `s.replace("mg", "")`. -/
def pyRemoveMg (s : String) : String := ⟨removeMgList s.data⟩

/-- Python `s.replace(" ", "-")` (a per-character substitution, since the
pattern is a single character). -/
def pySpaceToHyphen (s : String) : String :=
  ⟨s.data.map (fun c => if c = ' ' then '-' else c)⟩

/-- Python `s.strip()`: remove leading and trailing whitespace. -/
def pyStrip (s : String) : String :=
  ⟨((s.data.dropWhile Char.isWhitespace).reverse.dropWhile Char.isWhitespace).reverse⟩

/-- Python `", ".join(xs)`. -/
def joinSep (sep : String) : List String → String
  | [] => ""
  | [x] => x
  | x :: xs => x ++ sep ++ joinSep sep xs

/-- Truthiness of an `Optional[str]`: `None` and `""` are falsy. -/
def strTruthy : Option String → Bool
  | none => false
  | some s => !s.data.isEmpty

/-- Truthiness of an `Optional[int]`: `None` and `0` are falsy. -/
def intTruthy : Option Int → Bool
  | none => false
  | some v => v != 0

/-- Decimal value of a digit list (most significant first). -/
def decNat (cs : List Char) : Nat :=
  cs.foldl (fun n c => 10 * n + (c.toNat - 48)) 0

/-- The Python built-in `float(s)` on the fragment of its grammar the dose
strings can reach: surrounding whitespace, an optional sign, then either
`digits`, `digits.digits`, `digits.` or `.digits`.  `none` models the
`ValueError` Python raises on anything else (in particular on any string
with interior characters that are not digits or a single dot; exponents,
`inf`/`nan` and digit underscores never arise from the dose formats in this
repository and are not modelled). -/
def pyFloat? (s : String) : Option ℚ :=
  let cs := (pyStrip s).data
  let signed : Bool × List Char :=
    match cs with
    | '-' :: r => (true, r)
    | '+' :: r => (false, r)
    | r => (false, r)
  let neg := signed.1
  let body := signed.2
  let intPart := body.takeWhile Char.isDigit
  let rest := body.dropWhile Char.isDigit
  let mag? : Option ℚ :=
    match rest with
    | [] =>
        if intPart.isEmpty then none
        else some ((decNat intPart : ℚ))
    | '.' :: frac =>
        if frac.all Char.isDigit && !(intPart.isEmpty && frac.isEmpty) then
          some ((decNat intPart : ℚ) + (decNat frac : ℚ) / (10 : ℚ) ^ frac.length)
        else none
    | _ => none
  mag?.map (fun q => if neg then -q else q)

/-! ## Entity model (`src/cdes_m/models.py`) -/

/-- `MMJCertification`. -/
structure MMJCertification where
  state : String
  certification_number : String
  expiration : String
  authorized_to_recommend : Bool := true
deriving DecidableEq, Repr, Inhabited

/-- `Contact`. -/
structure Contact where
  email : Option String := none
  phone : Option String := none
  fax : Option String := none
deriving DecidableEq, Repr, Inhabited

/-- `Provider` (pydantic model; the `npi` and `license_state` pattern
constraints are enforced by `mkProvider` below, not by the structure). -/
structure Provider where
  id : String
  fhir_practitioner_id : Option String := none
  npi : String
  license_number : String
  license_state : String
  license_type : ProviderLicenseType := .MD
  license_expiration : String
  dea_number : Option String := none
  mmj_certification : Option MMJCertification := none
  specialty : List String := []
  organization : Option String := none
  contact : Option Contact := none
  tos_accepted : String
  baa_signed : String
  created_at : String := ""
  updated_at : String := ""
deriving DecidableEq, Repr, Inhabited

/-- The pydantic pattern `^[0-9]{10}$` on `Provider.npi` (pydantic v2
compiles it with strict end-of-text anchors). -/
def npiPatternOk (s : String) : Bool :=
  s.data.length = 10 && s.data.all Char.isDigit

/-- The pydantic pattern `^[A-Z]{2}$` on `Provider.license_state` /
`Patient.mmj_card_state`. -/
def statePatternOk (s : String) : Bool :=
  s.data.length = 2 && s.data.all (fun c => 'A' ≤ c && c ≤ 'Z')

/-- Validating construction of a `Provider`, modelling pydantic
validation-on-construction: the two pattern-constrained string fields are
checked, `none` modelling the `ValidationError`. Required fields are
enforced by the argument list itself. -/
def mkProvider (id npi license_number license_state : String)
    (license_type : ProviderLicenseType) (license_expiration : String)
    (dea_number : Option String) (contact : Option Contact)
    (tos_accepted baa_signed : String) : Option Provider :=
  if npiPatternOk npi && statePatternOk license_state then
    some {
      id := id, npi := npi, license_number := license_number,
      license_state := license_state, license_type := license_type,
      license_expiration := license_expiration, dea_number := dea_number,
      contact := contact, tos_accepted := tos_accepted,
      baa_signed := baa_signed }
  else none

/-- `Condition`. -/
structure Condition where
  id : String
  fhir_condition_id : Option String := none
  icd10_code : Option String := none
  snomed_code : Option String := none
  display_name : String
  category : ConditionCategory
  severity : Option Severity := none
  onset_date : Option String := none
  is_qualifying : Bool := true
deriving DecidableEq, Repr, Inhabited

/-- `CannabisHistory`. -/
structure CannabisHistory where
  experience_level : ExperienceLevel := .NAIVE
  preferred_methods : List ConsumptionMethod := []
  thc_tolerance : ThcTolerance := .LOW
  sensitivities : List String := []
  previous_strains : List String := []
deriving DecidableEq, Repr, Inhabited

/-- `TerpeneFingerprint`. -/
structure TerpeneFingerprint where
  positive_effects : List String := []
  negative_effects : List String := []
  neutral : List String := []
deriving DecidableEq, Repr, Inhabited

/-- `PatientConsent`. -/
structure PatientConsent where
  data_sharing : Bool := false
  research_participation : Bool := false
  efficacy_tracking : Bool := true
  fhir_export : Bool := false
  consent_date : String
  consent_version : String := "1.0"
deriving DecidableEq, Repr, Inhabited

/-- `Patient`. -/
structure Patient where
  id : String
  fhir_patient_id : Option String := none
  mrn : Option String := none
  mmj_card_number : Option String := none
  mmj_card_state : Option String := none
  mmj_card_expiration : Option String := none
  birth_date : Option String := none
  gender : Option String := none
  zip_code : Option String := none
  conditions : List Condition := []
  allergies : List String := []
  cannabis_history : Option CannabisHistory := none
  terpene_fingerprint : Option TerpeneFingerprint := none
  consent : PatientConsent
  primary_provider_id : Option String := none
  created_at : String := ""
  updated_at : String := ""
deriving DecidableEq, Repr, Inhabited

/-- `CannabinoidTargets`. -/
structure CannabinoidTargets where
  thc_min : Option ℚ := none
  thc_max : Option ℚ := none
  cbd_min : Option ℚ := none
  cbd_max : Option ℚ := none
  ratio_thc_cbd : Option String := none
deriving DecidableEq, Repr, Inhabited

/-- `TargetProfile`. -/
structure TargetProfile where
  terpene_profile : List (String × ℚ) := []
  cannabinoid_targets : Option CannabinoidTargets := none
  product_categories : List String := []
  consumption_methods : List ConsumptionMethod := []
deriving DecidableEq, Repr, Inhabited

/-- `DosingGuidance`. -/
structure DosingGuidance where
  route : Option ConsumptionMethod := none
  frequency : Option String := none
  dose_low : Option String := none
  dose_high : Option String := none
  max_daily : Option String := none
  titration_instructions : Option String := none
  special_instructions : Option String := none
deriving DecidableEq, Repr, Inhabited

/-- `Recommendation`. -/
structure Recommendation where
  id : String
  fhir_medication_request_id : Option String := none
  patient_id : String
  provider_id : String
  status : RecommendationStatus := .DRAFT
  intent : RecommendationIntent := .PROPOSAL
  condition_ids : List String := []
  target_profile : TargetProfile
  dosing_guidance : Option DosingGuidance := none
  rationale : Option String := none
  contraindications_reviewed : Bool := false
  drug_interactions_reviewed : Bool := false
  valid_from : Option String := none
  valid_until : Option String := none
  created_at : String := ""
  updated_at : String := ""
  signed_at : Option String := none
deriving DecidableEq, Repr, Inhabited

/-- `Effectiveness`. -/
structure Effectiveness where
  overall_rating : Int
  symptom_relief : Option Int := none
  duration_hours : Option ℚ := none
  onset_minutes : Option ℚ := none
  would_use_again : Option Bool := none
  would_recommend : Option Bool := none
deriving DecidableEq, Repr, Inhabited

/-- The pydantic bounds on `Effectiveness` (`overall_rating` 1–5,
`symptom_relief` 1–5 when present), as enforced at construction time. -/
def Effectiveness.boundsOk (e : Effectiveness) : Prop :=
  1 ≤ e.overall_rating ∧ e.overall_rating ≤ 5 ∧
    (∀ v, e.symptom_relief = some v → 1 ≤ v ∧ v ≤ 5)

/-- `SymptomScore`. -/
structure SymptomScore where
  condition_id : Option String := none
  symptom : String
  score_before : Int
  score_after : Int
  improvement : Int
deriving DecidableEq, Repr, Inhabited

/-- `SideEffectReport`. -/
structure SideEffectReport where
  effect : SideEffect
  severity : Severity
  duration_hours : Option ℚ := none
  notes : Option String := none
deriving DecidableEq, Repr, Inhabited

/-- `EfficacyReport`.  The free-form `Dict[str, Any]` payloads
(`product_used`, `consumption`) are carried as opaque blobs; no mapping
function reads them. -/
structure EfficacyReport where
  id : String
  fhir_observation_id : Option String := none
  patient_id : String
  recommendation_id : String
  product_used : Option String := none
  consumption : Option String := none
  effectiveness : Effectiveness
  symptom_scores : List SymptomScore := []
  side_effects : List SideEffectReport := []
  notes : Option String := none
  reported_at : String := ""
  reported_by : String := "patient"
deriving DecidableEq, Repr, Inhabited

/-! ## FHIR output structures (`src/cdes_m/fhir/__init__.py`)

These mirror exactly the substructures the mapping engine actually builds
(whether through `fhir.resources` constructors or raw dict literals).  A
field that the Python code passes as `None`, or a dict key whose value is
`None`, is `none` here; `fhir.resources` pydantic models treat `None`
exactly as "key absent" on serialization. -/

/-- System constant `CDES_M_SYSTEM`. -/
def CDES_M_SYSTEM : String := "https://cdes.acidni.net/fhir/cdes-m"

/-- System constant `NPI_SYSTEM`. -/
def NPI_SYSTEM : String := "http://hl7.org/fhir/sid/us-npi"

/-- System constant `ICD10_SYSTEM`. -/
def ICD10_SYSTEM : String := "http://hl7.org/fhir/sid/icd-10-cm"

/-- System constant `SNOMED_SYSTEM`. -/
def SNOMED_SYSTEM : String := "http://snomed.info/sct"

/-- System constant `LOINC_SYSTEM`. -/
def LOINC_SYSTEM : String := "http://loinc.org"

/-- FHIR `Coding` (only the fields the module ever sets). -/
structure Coding where
  system : Option String := none
  code : Option String := none
  display : Option String := none
deriving DecidableEq, Repr, Inhabited

/-- FHIR `CodeableConcept`. -/
structure CodeableConcept where
  coding : List Coding := []
  text : Option String := none
deriving DecidableEq, Repr, Inhabited

/-- FHIR `Period` (built as `{"start": ..., "end": ...}` dicts). -/
structure Period where
  start : Option String := none
  stop : Option String := none
deriving DecidableEq, Repr, Inhabited

/-- FHIR `Identifier`.  `stop` in `period` stands for the `end` key (a Lean
keyword). -/
structure Identifier where
  system : String
  value : String
  type : Option CodeableConcept := none
  period : Option Period := none
deriving DecidableEq, Repr, Inhabited

/-- FHIR `ContactPoint`. -/
structure ContactPoint where
  system : String
  value : String
deriving DecidableEq, Repr, Inhabited

/-- FHIR `Reference`. -/
structure Reference where
  reference : String
deriving DecidableEq, Repr, Inhabited

/-- The raw qualification dict built inside `provider_to_practitioner`:
one identifier (`system`/`value` keys only), a code, and a period holding
only the license expiration `end`. -/
structure Qualification where
  identifier : List Identifier
  code : CodeableConcept
  periodEnd : String
deriving DecidableEq, Repr, Inhabited

/-- FHIR `Practitioner` (fields set by `provider_to_practitioner`). -/
structure Practitioner where
  id : String
  identifier : List Identifier
  active : Bool
  telecom : Option (List ContactPoint)
  qualification : List Qualification
deriving DecidableEq, Repr, Inhabited

/-- The `[{"postalCode": zip}]` address dict in `patient_to_fhir`. -/
structure Address where
  postalCode : String
deriving DecidableEq, Repr, Inhabited

/-- FHIR `Patient` (fields set by `patient_to_fhir`). -/
structure FHIRPatient where
  id : String
  identifier : List Identifier
  active : Bool
  gender : Option String
  birthDate : Option String
  address : Option (List Address)
deriving DecidableEq, Repr, Inhabited

/-- FHIR `Condition` (fields set by `condition_to_fhir`). -/
structure FHIRCondition where
  id : String
  identifier : List Identifier
  clinicalStatus : CodeableConcept
  category : List CodeableConcept
  severity : Option CodeableConcept
  code : CodeableConcept
  subject : Reference
  onsetDateTime : Option String
deriving DecidableEq, Repr, Inhabited

/-- A FHIR simple quantity `{"value": ..., "unit": ...}`. -/
structure SimpleQuantity where
  value : ℚ
  unit : String
deriving DecidableEq, Repr, Inhabited

/-- The `doseRange` dict with optional `low`/`high` bounds. -/
structure DoseRange where
  low : Option SimpleQuantity
  high : Option SimpleQuantity
deriving DecidableEq, Repr, Inhabited

/-- One entry of the `doseAndRate` list. -/
structure DoseAndRate where
  doseRange : DoseRange
deriving DecidableEq, Repr, Inhabited

/-- The `maxDosePerPeriod` dict: numerator over denominator. -/
structure MaxDosePerPeriod where
  numerator : SimpleQuantity
  denominator : SimpleQuantity
deriving DecidableEq, Repr, Inhabited

/-- The `timing={"code": {"text": ...}}` dict, reduced to its one leaf. -/
structure TimingCode where
  text : String
deriving DecidableEq, Repr, Inhabited

/-- FHIR `Dosage` (fields set inside `recommendation_to_medication_request`). -/
structure Dosage where
  route : Option CodeableConcept
  timing : Option TimingCode
  doseAndRate : Option (List DoseAndRate)
  maxDosePerPeriod : Option MaxDosePerPeriod
  patientInstruction : Option String
deriving DecidableEq, Repr, Inhabited

/-- The `dispenseRequest={"validityPeriod": {...}}` dict. -/
structure DispenseRequest where
  validityPeriod : Period
deriving DecidableEq, Repr, Inhabited

/-- A `{"text": ...}` annotation dict (the `note` entries). -/
structure NoteText where
  text : String
deriving DecidableEq, Repr, Inhabited

/-- FHIR `MedicationRequest` (fields set by
`recommendation_to_medication_request`). -/
structure MedicationRequest where
  id : String
  identifier : List Identifier
  status : String
  intent : String
  category : List CodeableConcept
  medicationCodeableConcept : CodeableConcept
  subject : Reference
  requester : Reference
  reasonReference : Option (List Reference)
  dosageInstruction : Option (List Dosage)
  note : Option (List NoteText)
  dispenseRequest : Option DispenseRequest
deriving DecidableEq, Repr, Inhabited

/-- FHIR `Quantity` with a system (the symptom-score `valueQuantity`). -/
structure Quantity where
  value : ℚ
  unit : String
  system : String
deriving DecidableEq, Repr, Inhabited

/-- One component dict of the observation: a code plus exactly one of
`valueInteger` / `valueQuantity`. -/
structure ObservationComponent where
  code : CodeableConcept
  valueInteger : Option Int := none
  valueQuantity : Option Quantity := none
deriving DecidableEq, Repr, Inhabited

/-- FHIR `Observation` (fields set by `efficacy_report_to_observation`). -/
structure Observation where
  id : String
  identifier : List Identifier
  status : String
  category : List CodeableConcept
  code : CodeableConcept
  subject : Reference
  effectiveDateTime : String
  performer : List Reference
  basedOn : List Reference
  component : List ObservationComponent
  note : Option (List NoteText)
deriving DecidableEq, Repr, Inhabited

/-- The error outcomes of the mapping engine: `collaboratorUnavailable`
models the `ImportError` raised by `check_fhir_available` when the
`fhir.resources` library is missing; `malformedDoseText s` models the
`ValueError` raised by `float(s)` on a non-numeric dose remainder (the
carried string is the argument `float` was given, i.e. the dose text after
`.replace("mg", "").strip()`). -/
inductive MappingError where
  | collaboratorUnavailable
  | malformedDoseText (s : String)
deriving DecidableEq, Repr, Inhabited

/-! ## Mapping engine (`src/cdes_m/fhir/__init__.py`) -/

/-- The Python helper `_severity_to_snomed`: a `dict.get` with default
`"6736007"` over the lowercased severity string. -/
def severity_to_snomed (severity : String) : String :=
  let s := pyLower severity
  if s = "mild" then "255604002"
  else if s = "moderate" then "6736007"
  else if s = "severe" then "24484000"
  else if s = "critical" then "442452003"
  else "6736007"

/-- `provider_to_practitioner`.  `avail` is the module-level
`FHIR_AVAILABLE` flag consulted by `check_fhir_available()`, the first
statement of the function body. -/
def provider_to_practitioner (avail : Bool) (provider : Provider) :
    Except MappingError Practitioner :=
  if !avail then .error .collaboratorUnavailable else
  let identifiers : List Identifier :=
    [ { system := CDES_M_SYSTEM, value := provider.id,
        type := some { coding := [{ system := some CDES_M_SYSTEM, code := some "CDES-M-ID" }] } },
      { system := NPI_SYSTEM, value := provider.npi,
        type := some { coding := [{
          system := some "http://terminology.hl7.org/CodeSystem/v2-0203",
          code := some "NPI",
          display := some "National Provider Identifier" }] } },
      { system := "https://license." ++ pyLower provider.license_state ++ ".gov",
        value := provider.license_number,
        type := some { coding := [{
          system := some "http://terminology.hl7.org/CodeSystem/v2-0203",
          code := some "MD",
          display := some "Medical License number" }] } } ]
  let identifiers := identifiers ++
    (match provider.dea_number with
     | some d =>
         if d.data.isEmpty then [] else
           [ { system := "https://www.deadiversion.usdoj.gov", value := d,
               type := some { coding := [{
                 system := some "http://terminology.hl7.org/CodeSystem/v2-0203",
                 code := some "DEA",
                 display := some "DEA Registration Number" }] } } ]
     | none => [])
  let telecom : List ContactPoint :=
    match provider.contact with
    | some c =>
        (match c.email with
         | some e => if e.data.isEmpty then [] else [⟨"email", e⟩]
         | none => []) ++
        (match c.phone with
         | some p => if p.data.isEmpty then [] else [⟨"phone", p⟩]
         | none => []) ++
        (match c.fax with
         | some f => if f.data.isEmpty then [] else [⟨"fax", f⟩]
         | none => [])
    | none => []
  .ok {
    id := provider.id,
    identifier := identifiers,
    active := true,
    telecom := if telecom.isEmpty then none else some telecom,
    qualification := [
      { identifier := [
          { system := "https://license." ++ pyLower provider.license_state ++ ".gov",
            value := provider.license_number } ],
        code := { coding := [{
          system := some "http://terminology.hl7.org/CodeSystem/v2-0360",
          code := some provider.license_type.value,
          display := some provider.license_type.pyName }] },
        periodEnd := provider.license_expiration } ] }

/-- `patient_to_fhir`. -/
def patient_to_fhir (avail : Bool) (patient : Patient) :
    Except MappingError FHIRPatient :=
  if !avail then .error .collaboratorUnavailable else
  let identifiers : List Identifier :=
    [ { system := CDES_M_SYSTEM, value := patient.id,
        type := some { coding := [{ system := some CDES_M_SYSTEM, code := some "CDES-M-ID" }] } } ]
  let identifiers := identifiers ++
    (match patient.mrn with
     | some m =>
         if m.data.isEmpty then [] else
           [ { system := "http://hospital.example.org/mrn", value := m,
               type := some { coding := [{
                 system := some "http://terminology.hl7.org/CodeSystem/v2-0203",
                 code := some "MR",
                 display := some "Medical Record Number" }] } } ]
     | none => [])
  let identifiers := identifiers ++
    (match patient.mmj_card_number, patient.mmj_card_state with
     | some n, some st =>
         if n.data.isEmpty || st.data.isEmpty then [] else
           [ { system := "https://mmj." ++ pyLower st ++ ".gov",
               value := n,
               type := some { coding := [{ system := some CDES_M_SYSTEM, code := some "MMJ-CARD" }] },
               period := patient.mmj_card_expiration.map (fun e => { stop := some e }) } ]
     | _, _ => [])
  .ok {
    id := patient.id,
    identifier := identifiers,
    active := true,
    gender := patient.gender,
    birthDate := patient.birth_date,
    address := match patient.zip_code with
      | some z => if z.data.isEmpty then none else some [⟨z⟩]
      | none => none }

/-- `condition_to_fhir`. -/
def condition_to_fhir (avail : Bool) (condition : Condition) (patient_id : String) :
    Except MappingError FHIRCondition :=
  if !avail then .error .collaboratorUnavailable else
  let coding : List Coding :=
    (match condition.icd10_code with
     | some c =>
         if c.data.isEmpty then [] else
           [{ system := some ICD10_SYSTEM, code := some c,
              display := some condition.display_name }]
     | none => []) ++
    (match condition.snomed_code with
     | some c =>
         if c.data.isEmpty then [] else
           [{ system := some SNOMED_SYSTEM, code := some c,
              display := some condition.display_name }]
     | none => [])
  .ok {
    id := condition.id,
    identifier := [{ system := CDES_M_SYSTEM, value := condition.id }],
    clinicalStatus := { coding := [{
      system := some "http://terminology.hl7.org/CodeSystem/condition-clinical",
      code := some "active" }] },
    category := [ { coding := [{
      system := some (CDES_M_SYSTEM ++ "/condition-category"),
      code := some condition.category.value,
      display := some condition.category.titleDisplay }] } ],
    severity := match condition.severity with
      | some sv => some { coding := [{
          system := some "http://snomed.info/sct",
          code := some (severity_to_snomed sv.value),
          display := some sv.titleDisplay }] }
      | none => none,
    code := { coding := coding, text := some condition.display_name },
    subject := ⟨"Patient/" ++ patient_id⟩,
    onsetDateTime := condition.onset_date }

/-- The dose-string decomposition
`float(s.replace("mg", "").strip())`: strip every occurrence of `"mg"`,
trim whitespace, then parse with Python `float`.  The error carries the
string `float` was given. -/
def doseVal? (s : String) : Except MappingError ℚ :=
  let t := pyStrip (pyRemoveMg s)
  match pyFloat? t with
  | some v => .ok v
  | none => .error (.malformedDoseText t)

/-- The dose value actually produced (ignoring which error), for stating
parse-level facts. -/
def parseDose (s : String) : Option ℚ :=
  pyFloat? (pyStrip (pyRemoveMg s))

/-- One optional bound of the dose range:
`{"value": float(...), "unit": "mg"} if s else None`. -/
def optDoseQty (s? : Option String) : Except MappingError (Option SimpleQuantity) :=
  match s? with
  | some s =>
      if s.data.isEmpty then .ok none
      else (doseVal? s).map (fun v => some ⟨v, "mg"⟩)
  | none => .ok none

/-- The `Dosage(...)` construction inside
`recommendation_to_medication_request` (lines 315–339): route, timing,
dose-and-rate (guarded by `dg.dose_low or dg.dose_high`), max dose per
period (guarded by `dg.max_daily`) and patient instruction. -/
def mkDosage (dg : DosingGuidance) : Except MappingError Dosage := do
  let doseAndRate ←
    if strTruthy dg.dose_low || strTruthy dg.dose_high then do
      let low ← optDoseQty dg.dose_low
      let high ← optDoseQty dg.dose_high
      pure (some [{ doseRange := { low := low, high := high } }])
    else pure none
  let maxDose ←
    match dg.max_daily with
    | some s =>
        if s.data.isEmpty then pure none
        else (doseVal? s).map (fun v =>
          some { numerator := ⟨v, "mg"⟩, denominator := ⟨(1 : ℚ), "d"⟩ })
    | none => pure none
  pure {
    route := match dg.route with
      | some rt => some { coding := [{
          system := some (CDES_M_SYSTEM ++ "/consumption-method"),
          code := some rt.value,
          display := some rt.titleDisplay }] }
      | none => none,
    timing := match dg.frequency with
      | some f => if f.data.isEmpty then none else some ⟨f⟩
      | none => none,
    doseAndRate := doseAndRate,
    maxDosePerPeriod := maxDose,
    patientInstruction := dg.special_instructions }

/-- `recommendation_to_medication_request`.  The dosage instruction is
computed first (propagating any dose-parse failure), then the resource is
assembled. -/
def recommendation_to_medication_request (avail : Bool)
    (recommendation : Recommendation) (patient_id provider_id : String) :
    Except MappingError MedicationRequest :=
  if !avail then .error .collaboratorUnavailable else
  let body : Option (List Dosage) → MedicationRequest := fun dosage_instruction =>
    { id := recommendation.id,
      identifier := [{ system := CDES_M_SYSTEM, value := recommendation.id }],
      status := pyLower recommendation.status.value,
      intent := pyLower recommendation.intent.value,
      category := [ { coding := [{
        system := some CDES_M_SYSTEM,
        code := some "cannabis-recommendation",
        display := some "Cannabis Recommendation" }] } ],
      medicationCodeableConcept :=
        { coding := [{
            system := some (CDES_M_SYSTEM ++ "/terpene-profile"),
            code := some "custom-profile",
            display := some "Custom Cannabis Profile" }],
          text := some ("Cannabis profile with target terpenes: " ++
            joinSep ", "
              (recommendation.target_profile.terpene_profile.map Prod.fst)) },
      subject := ⟨"Patient/" ++ patient_id⟩,
      requester := ⟨"Practitioner/" ++ provider_id⟩,
      reasonReference :=
        if recommendation.condition_ids.isEmpty then none
        else some (recommendation.condition_ids.map (fun cid => ⟨"Condition/" ++ cid⟩)),
      dosageInstruction := dosage_instruction,
      note := match recommendation.rationale with
        | some r => if r.data.isEmpty then none else some [⟨r⟩]
        | none => none,
      dispenseRequest :=
        if recommendation.valid_from.isSome || recommendation.valid_until.isSome then
          some { validityPeriod := { start := recommendation.valid_from,
                                     stop := recommendation.valid_until } }
        else none }
  match recommendation.dosing_guidance with
  | none => .ok (body none)
  | some dg =>
      match mkDosage dg with
      | .ok d => .ok (body (some [d]))
      | .error e => .error e

/-- `efficacy_report_to_observation`. -/
def efficacy_report_to_observation (avail : Bool) (report : EfficacyReport)
    (patient_id : String) : Except MappingError Observation :=
  if !avail then .error .collaboratorUnavailable else
  let components : List ObservationComponent :=
    [ { code := { coding := [{
          system := some (CDES_M_SYSTEM ++ "/efficacy"),
          code := some "overall-rating",
          display := some "Overall Effectiveness Rating" }] },
        valueInteger := some report.effectiveness.overall_rating } ]
  let components := components ++
    (match report.effectiveness.symptom_relief with
     | some v =>
         if v = 0 then [] else
           [ { code := { coding := [{
                 system := some (CDES_M_SYSTEM ++ "/efficacy"),
                 code := some "symptom-relief",
                 display := some "Symptom Relief Rating" }] },
               valueInteger := some v } ]
     | none => [])
  let components := components ++
    report.symptom_scores.map (fun score =>
      { code := { coding := [{
          system := some (CDES_M_SYSTEM ++ "/symptom"),
          code := some (pySpaceToHyphen (pyLower score.symptom)),
          display := some score.symptom }] },
        valueQuantity := some ⟨(score.improvement : ℚ), "points", "http://unitsofmeasure.org"⟩ })
  .ok {
    id := report.id,
    identifier := [{ system := CDES_M_SYSTEM, value := report.id }],
    status := "final",
    category := [ { coding := [{
      system := some "http://terminology.hl7.org/CodeSystem/observation-category",
      code := some "survey",
      display := some "Survey" }] } ],
    code := { coding := [
      { system := some LOINC_SYSTEM, code := some "77580-4",
        display := some "Patient reported outcome measure" },
      { system := some CDES_M_SYSTEM, code := some "cannabis-efficacy-report",
        display := some "Cannabis Efficacy Report" } ] },
    subject := ⟨"Patient/" ++ patient_id⟩,
    effectiveDateTime := report.reported_at,
    performer := [⟨"Patient/" ++ patient_id⟩],
    basedOn := [⟨"MedicationRequest/" ++ report.recommendation_id⟩],
    component := components,
    note := match report.notes with
      | some n => if n.isEmpty then none else some [⟨n⟩]
      | none => none }

/-! ## Observables and validity predicates -/

/-- Propositional decidable equality for `Except`, so that concrete mapping
outcomes can be settled by `decide`. -/
instance {ε α : Type} [DecidableEq ε] [DecidableEq α] : DecidableEq (Except ε α) :=
  fun a b =>
    match a, b with
    | .ok x, .ok y =>
        if h : x = y then .isTrue (by rw [h]) else .isFalse (by simp [h])
    | .error x, .error y =>
        if h : x = y then .isTrue (by rw [h]) else .isFalse (by simp [h])
    | .ok _, .error _ => .isFalse (by simp)
    | .error _, .ok _ => .isFalse (by simp)

/-- An identifier tagged (through its `type` coding) as the medical-cannabis
card (`MMJ-CARD`). -/
def isMmjCardIdent (idn : Identifier) : Bool :=
  match idn.type with
  | some t => t.coding.any (fun cd => cd.code == some "MMJ-CARD")
  | none => false

/-- An identifier tagged as a medical-record number (`MR`). -/
def isMrnIdent (idn : Identifier) : Bool :=
  match idn.type with
  | some t => t.coding.any (fun cd => cd.code == some "MR")
  | none => false

/-- An identifier tagged as a controlled-substance (DEA) registration. -/
def isDeaIdent (idn : Identifier) : Bool :=
  match idn.type with
  | some t => t.coding.any (fun cd => cd.code == some "DEA")
  | none => false

/-- Number of components of an observation whose code carries the
`overall-rating` coding. -/
def overallRatingCount (o : Observation) : Nat :=
  (o.component.filter
    (fun comp => comp.code.coding.any (fun cd => cd.code == some "overall-rating"))).length

/-- The overall-effectiveness component built from an effectiveness record
(stated independently of the mapping function, for comparison with its
output). -/
def overallComponentOf (e : Effectiveness) : ObservationComponent :=
  { code := { coding := [{
      system := some (CDES_M_SYSTEM ++ "/efficacy"),
      code := some "overall-rating",
      display := some "Overall Effectiveness Rating" }] },
    valueInteger := some e.overall_rating }

/-- The symptom-relief component for a present relief rating `v`. -/
def reliefComponentOf (v : Int) : ObservationComponent :=
  { code := { coding := [{
      system := some (CDES_M_SYSTEM ++ "/efficacy"),
      code := some "symptom-relief",
      display := some "Symptom Relief Rating" }] },
    valueInteger := some v }

/-- The per-symptom-score component. -/
def symptomComponentOf (sc : SymptomScore) : ObservationComponent :=
  { code := { coding := [{
      system := some (CDES_M_SYSTEM ++ "/symptom"),
      code := some (pySpaceToHyphen (pyLower sc.symptom)),
      display := some sc.symptom }] },
    valueQuantity := some ⟨(sc.improvement : ℚ), "points", "http://unitsofmeasure.org"⟩ }

/-! ## Concrete entities for counterexamples and witnesses -/

/-- A minimal consent record (only required field filled). -/
def consent0 : PatientConsent :=
  { consent_date := "2025-01-01T00:00:00" }

/-- C1 failing input: the recommendation from the repository's own test
suite, with dosing guidance `dose_low="2.5mg THC"`, `dose_high="5mg THC"`. -/
def rec_c1 : Recommendation :=
  { id := "rec-1", patient_id := "pat-1", provider_id := "prov-1",
    target_profile := { terpene_profile := [("myrcene", (4 : ℚ) / 5)] },
    dosing_guidance := some { route := some .INHALATION_VAPE,
                              frequency := some "As needed, up to 3x daily",
                              dose_low := some "2.5mg THC",
                              dose_high := some "5mg THC",
                              max_daily := some "15mg THC" } }

/-- C2 counterexample input: a condition with absent severity. -/
def cond_c2 : Condition :=
  { id := "cond-2", display_name := "Chronic pain", category := .CHRONIC_PAIN,
    severity := none }

/-- C2 witness input: a condition with severity mild. -/
def cond_c2w : Condition :=
  { id := "cond-2w", display_name := "Chronic pain", category := .CHRONIC_PAIN,
    severity := some .MILD }

/-- The condition resource produced for [cond_c2w]. -/
def fhirCond_c2w : FHIRCondition :=
  (condition_to_fhir true cond_c2w "pat-1").toOption.getD default

/-- C3 symptom scores. -/
def sc_c3a : SymptomScore :=
  { symptom := "Back Pain", score_before := 7, score_after := 3, improvement := 4 }

/-- Second C3 symptom score. -/
def sc_c3b : SymptomScore :=
  { symptom := "Sleep", score_before := 5, score_after := 2, improvement := 3 }

/-- C3 input: an efficacy report with two symptom scores and a present
symptom-relief rating. -/
def rep_c3 : EfficacyReport :=
  { id := "rep-3", patient_id := "pat-1", recommendation_id := "rec-1",
    effectiveness := { overall_rating := 4, symptom_relief := some 4 },
    symptom_scores := [sc_c3a, sc_c3b],
    reported_at := "2025-02-01T12:00:00" }

/-- The observation produced for [rep_c3]. -/
def obs_c3 : Observation :=
  (efficacy_report_to_observation true rep_c3 "pat-1").toOption.getD default

/-- C4 counterexample input: a patient carrying a medical-cannabis card
number but no card state. -/
def pat_c4 : Patient :=
  { id := "pat-4", consent := consent0, mmj_card_number := some "MMJ12345",
    mmj_card_state := none }

/-- C4 witness input: a patient carrying card number, card state,
expiration and a medical-record number. -/
def pat_c4w : Patient :=
  { id := "pat-4w", consent := consent0, mrn := some "MRN-77",
    mmj_card_number := some "MMJ12345", mmj_card_state := some "FL",
    mmj_card_expiration := some "2026-06-30" }

/-- The patient resource produced for [pat_c4w]. -/
def fhirPat_c4w : FHIRPatient :=
  (patient_to_fhir true pat_c4w).toOption.getD default

/-- C5 witness input: a condition carrying both an ICD-10 code and a SNOMED
code. -/
def cond_c5 : Condition :=
  { id := "cond-5", display_name := "COPD", category := .OTHER,
    icd10_code := some "J44.9", snomed_code := some "13645005" }

/-- The condition resource produced for [cond_c5]. -/
def fhirCond_c5 : FHIRCondition :=
  (condition_to_fhir true cond_c5 "pat-1").toOption.getD default

/-- C6 witness input: the spec's end-to-end provider (10-digit npi, Florida
license, no DEA number). -/
def prov_c6 : Provider :=
  { id := "prov-6", npi := "1234567890", license_number := "ME123456",
    license_state := "FL", license_expiration := "2026-12-31",
    dea_number := none, tos_accepted := "2025-01-01T00:00:00",
    baa_signed := "2025-01-01T00:00:00" }

/-- The practitioner resource produced for [prov_c6]. -/
def pract_c6 : Practitioner :=
  (provider_to_practitioner true prov_c6).toOption.getD default

/-- C8 witness input: a recommendation with no dosing guidance, a rationale
and a validity start date. -/
def rec_c8 : Recommendation :=
  { id := "rec-8", patient_id := "pat-1", provider_id := "prov-1",
    target_profile := { terpene_profile := [("myrcene", (4 : ℚ) / 5)] },
    condition_ids := ["cond-2"],
    dosing_guidance := none,
    rationale := some "High myrcene for bronchodilation",
    valid_from := some "2025-01-01" }

/-- The medication request produced for [rec_c8]. -/
def mr_c8 : MedicationRequest :=
  (recommendation_to_medication_request true rec_c8 "pat-1" "prov-1").toOption.getD default

/-! ## Claim theorems -/

/-- C1: on the repository's canonical dose strings "2.5mg THC" / "5mg THC"
the dose decomposition fails: stripping "mg" leaves "2.5 THC", which
float() rejects, so the whole mapping raises instead of producing the
2.5–5.0 mg dose range the specification describes. -/
theorem C1_dose_parse_raises :
    parseDose "2.5mg THC" = none ∧ parseDose "5mg THC" = none ∧
    recommendation_to_medication_request true rec_c1 "pat-1" "prov-1"
      = .error (.malformedDoseText "2.5 THC") := by
  exact ⟨by decide, by decide, by decide⟩

/-- C9: with the resource-construction collaborator absent, every one of
the five mapping functions fails with the collaborator-unavailable error on
every input, producing no output resource. -/
theorem C9_collaborator_unavailable :
    (∀ p, provider_to_practitioner false p = .error .collaboratorUnavailable) ∧
    (∀ pt, patient_to_fhir false pt = .error .collaboratorUnavailable) ∧
    (∀ c pid, condition_to_fhir false c pid = .error .collaboratorUnavailable) ∧
    (∀ rec pid prid,
      recommendation_to_medication_request false rec pid prid
        = .error .collaboratorUnavailable) ∧
    (∀ rep pid,
      efficacy_report_to_observation false rep pid = .error .collaboratorUnavailable) := by
  exact ⟨fun _ => rfl, fun _ => rfl, fun _ _ => rfl, fun _ _ _ => rfl, fun _ _ => rfl⟩

/-- C10: the observation never depends on who reported the efficacy report,
and its performer reference is always the patient passed in. -/
theorem C10_reported_by_noninterference :
    (∀ (avail : Bool) (rep : EfficacyReport) (rb pid : String),
      efficacy_report_to_observation avail { rep with reported_by := rb } pid
        = efficacy_report_to_observation avail rep pid) ∧
    (∀ (rep : EfficacyReport) (pid : String),
      (efficacy_report_to_observation true rep pid).map Observation.performer
        = .ok [{ reference := "Patient/" ++ pid }]) := by
  constructor
  · intro avail rep rb pid
    cases rep
    rfl
  · intro rep pid
    rfl

/-- C2 counterexample: for a condition with absent severity the mapping
emits no severity element at all, not a severity coded 6736007. -/
theorem C2_counterexample :
    (condition_to_fhir true cond_c2 "pat-1").map FHIRCondition.severity = .ok none ∧
    (condition_to_fhir true cond_c2 "pat-1").map FHIRCondition.severity ≠
      .ok (some { coding := [{ system := some SNOMED_SYSTEM, code := some "6736007",
                               display := some "Moderate" }] }) := by
  exact ⟨by decide, by decide⟩

/-- C3 counterexample: the observation built from a two-symptom-score
report contains exactly one overall-rating component, not two. -/
theorem C3_counterexample :
    (efficacy_report_to_observation true rep_c3 "pat-1").map overallRatingCount = .ok 1 ∧
    (efficacy_report_to_observation true rep_c3 "pat-1").map overallRatingCount ≠ .ok 2 := by
  exact ⟨by decide, by decide⟩

/-- C4 counterexample: a patient carrying a medical-cannabis card number
but no card state gets no card identifier in the patient resource. -/
theorem C4_counterexample :
    strTruthy pat_c4.mmj_card_number = true ∧
    (patient_to_fhir true pat_c4).map (fun r => r.identifier.filter isMmjCardIdent)
      = .ok [] := by
  exact ⟨by decide, by decide⟩

/-- C2 (amended): the severity lookup maps mild to 255604002, moderate to
6736007 and severe to 24484000, and returns 6736007 for any string outside
its four-entry table; within `condition_to_fhir` a present severity is
emitted with its looked-up code, while an absent severity yields no
severity element at all. -/
theorem C2_severity_mapping (c : Condition) (pid : String) (r : FHIRCondition)
    (h : condition_to_fhir true c pid = .ok r) :
    severity_to_snomed "mild" = "255604002" ∧
    severity_to_snomed "moderate" = "6736007" ∧
    severity_to_snomed "severe" = "24484000" ∧
    (∀ s : String,
      pyLower s ∉ (["mild", "moderate", "severe", "critical"] : List String) →
      severity_to_snomed s = "6736007") ∧
    (c.severity = none → r.severity = none) ∧
    (∀ sv, c.severity = some sv →
      r.severity = some { coding := [{
        system := some "http://snomed.info/sct",
        code := some (severity_to_snomed sv.value),
        display := some sv.titleDisplay }] }) := by
  simp only [condition_to_fhir, Bool.not_true, Bool.false_eq_true, if_false,
    Except.ok.injEq] at h
  subst h
  refine ⟨by decide, by decide, by decide, ?_, ?_, ?_⟩
  · intro s hs
    simp only [List.mem_cons, List.mem_singleton, not_or] at hs
    obtain ⟨h1, h2, h3, h4, -⟩ := hs
    simp only [severity_to_snomed, if_neg h1, if_neg h2, if_neg h3, if_neg h4]
  · intro hsev
    simp only [hsev]
  · intro sv hsev
    simp only [hsev]

/-- C2 witness: for the mild-severity condition [cond_c2w] the emitted
severity coding carries the looked-up code. -/
theorem C2_severity_mapping_witness :
    fhirCond_c2w.severity = some { coding := [{
      system := some "http://snomed.info/sct",
      code := some (severity_to_snomed Severity.MILD.value),
      display := some Severity.MILD.titleDisplay }] } :=
  (C2_severity_mapping cond_c2w "pat-1" fhirCond_c2w (by decide)).2.2.2.2.2
    Severity.MILD (by decide)

/-- C3 (amended): for a report with two symptom scores the component list
is one overall-rating entry, then one symptom-relief entry exactly when the
(1–5 bounded, hence non-zero) relief rating is present, then the two
symptom-score entries, in that fixed order — 3 or 4 components in all. -/
theorem C3_component_shape (rep : EfficacyReport) (pid : String) (r : Observation)
    (s1 s2 : SymptomScore)
    (hb : rep.effectiveness.symptom_relief ≠ some 0)
    (hs : rep.symptom_scores = [s1, s2])
    (h : efficacy_report_to_observation true rep pid = .ok r) :
    (rep.effectiveness.symptom_relief = none →
      r.component = [overallComponentOf rep.effectiveness,
                     symptomComponentOf s1, symptomComponentOf s2] ∧
      r.component.length = 3) ∧
    (∀ v, rep.effectiveness.symptom_relief = some v →
      r.component = [overallComponentOf rep.effectiveness, reliefComponentOf v,
                     symptomComponentOf s1, symptomComponentOf s2] ∧
      r.component.length = 4) := by
  simp only [efficacy_report_to_observation, Bool.not_true, Bool.false_eq_true, if_false,
    Except.ok.injEq] at h
  subst h
  constructor
  · intro hrel
    simp [hrel, hs, overallComponentOf, symptomComponentOf]
  · intro v hrel
    have hv : ¬ v = 0 := by
      intro h0
      exact hb (h0 ▸ hrel)
    simp [hrel, hs, hv, overallComponentOf, reliefComponentOf, symptomComponentOf]

/-- C3 witness: the two-score report [rep_c3] with a present relief rating
yields the four components in order. -/
theorem C3_component_shape_witness :
    obs_c3.component = [overallComponentOf rep_c3.effectiveness, reliefComponentOf 4,
                        symptomComponentOf sc_c3a, symptomComponentOf sc_c3b] ∧
    obs_c3.component.length = 4 :=
  (C3_component_shape rep_c3 "pat-1" obs_c3 sc_c3a sc_c3b (by decide) (by decide)
    (by decide)).2 4 (by decide)

/-- C4 (amended): a patient carrying both a non-empty card number and a
non-empty card state gets exactly one medical-cannabis-card identifier,
tagged with the state-specific system URI and the MMJ-CARD type coding;
likewise exactly one medical-record-number identifier when a non-empty mrn
is carried; the domain-namespaced identifier for the patient's own id leads
the list. -/
theorem C4_patient_identifiers (p : Patient) (r : FHIRPatient) (n st : String)
    (hn : p.mmj_card_number = some n) (hst : p.mmj_card_state = some st)
    (hne : n ≠ "") (hstne : st ≠ "")
    (h : patient_to_fhir true p = .ok r) :
    r.identifier.filter isMmjCardIdent =
      [ { system := "https://mmj." ++ pyLower st ++ ".gov", value := n,
          type := some { coding := [{ system := some CDES_M_SYSTEM, code := some "MMJ-CARD" }] },
          period := p.mmj_card_expiration.map (fun e => { stop := some e }) } ] ∧
    (∀ m, p.mrn = some m → m ≠ "" →
      r.identifier.filter isMrnIdent =
        [ { system := "http://hospital.example.org/mrn", value := m,
            type := some { coding := [{
              system := some "http://terminology.hl7.org/CodeSystem/v2-0203",
              code := some "MR",
              display := some "Medical Record Number" }] } } ]) ∧
    r.identifier.head? = some
      { system := CDES_M_SYSTEM, value := p.id,
        type := some { coding := [{ system := some CDES_M_SYSTEM, code := some "CDES-M-ID" }] } } := by
  have hne' : n.data.isEmpty = false := by
    cases n with
    | mk l =>
        cases l with
        | nil => exact absurd rfl hne
        | cons a as => rfl
  have hstne' : st.data.isEmpty = false := by
    cases st with
    | mk l =>
        cases l with
        | nil => exact absurd rfl hstne
        | cons a as => rfl
  simp only [patient_to_fhir, Bool.not_true, Bool.false_eq_true, if_false,
    Except.ok.injEq] at h
  subst h
  refine ⟨?_, ?_, ?_⟩
  · cases hm : p.mrn with
    | none =>
        simp [hm, hn, hst, hne', hstne', isMmjCardIdent, List.filter]
    | some m =>
        by_cases hme : m.data.isEmpty
        · simp [hm, hn, hst, hne', hstne', hme, isMmjCardIdent, List.filter]
        · simp [hm, hn, hst, hne', hstne', hme, isMmjCardIdent, List.filter]
  · intro m hm hmne
    have hmne' : m.data.isEmpty = false := by
      cases m with
      | mk l =>
          cases l with
          | nil => exact absurd rfl hmne
          | cons a as => rfl
    simp [hm, hn, hst, hne', hstne', hmne', isMrnIdent, List.filter]
  · simp

/-- C4 witness: [pat_c4w] (card number, state and mrn all carried) yields
exactly one card identifier and one mrn identifier. -/
theorem C4_patient_identifiers_witness :
    fhirPat_c4w.identifier.filter isMmjCardIdent =
      [ { system := "https://mmj." ++ pyLower "FL" ++ ".gov", value := "MMJ12345",
          type := some { coding := [{ system := some CDES_M_SYSTEM, code := some "MMJ-CARD" }] },
          period := pat_c4w.mmj_card_expiration.map (fun e => { stop := some e }) } ] ∧
    fhirPat_c4w.identifier.filter isMrnIdent =
      [ { system := "http://hospital.example.org/mrn", value := "MRN-77",
          type := some { coding := [{
            system := some "http://terminology.hl7.org/CodeSystem/v2-0203",
            code := some "MR",
            display := some "Medical Record Number" }] } } ] := by
  have h := C4_patient_identifiers pat_c4w fhirPat_c4w "MMJ12345" "FL"
    (by decide) (by decide) (by decide) (by decide) (by decide)
  exact ⟨h.1, h.2.1 "MRN-77" (by decide) (by decide)⟩

/-- C5: a condition carrying both (non-empty) codes yields a coding list of
exactly two entries — the ICD-10 coding then the SNOMED coding, each under
its own system URI, both displaying the condition's display label. -/
theorem C5_dual_coding (c : Condition) (pid : String) (r : FHIRCondition) (i s : String)
    (hi : c.icd10_code = some i) (hs : c.snomed_code = some s)
    (hine : i ≠ "") (hsne : s ≠ "")
    (h : condition_to_fhir true c pid = .ok r) :
    r.code.coding =
      [ { system := some ICD10_SYSTEM, code := some i, display := some c.display_name },
        { system := some SNOMED_SYSTEM, code := some s, display := some c.display_name } ] ∧
    r.code.coding.length = 2 := by
  have hine' : i.data.isEmpty = false := by
    cases i with
    | mk l =>
        cases l with
        | nil => exact absurd rfl hine
        | cons a as => rfl
  have hsne' : s.data.isEmpty = false := by
    cases s with
    | mk l =>
        cases l with
        | nil => exact absurd rfl hsne
        | cons a as => rfl
  simp only [condition_to_fhir, Bool.not_true, Bool.false_eq_true, if_false,
    Except.ok.injEq] at h
  subst h
  simp [hi, hs, hine', hsne']

/-- C5 witness: the dual-coded condition [cond_c5] yields exactly the two
codings with the shared display label. -/
theorem C5_dual_coding_witness :
    fhirCond_c5.code.coding =
      [ { system := some ICD10_SYSTEM, code := some "J44.9", display := some cond_c5.display_name },
        { system := some SNOMED_SYSTEM, code := some "13645005", display := some cond_c5.display_name } ] ∧
    fhirCond_c5.code.coding.length = 2 :=
  C5_dual_coding cond_c5 "pat-1" fhirCond_c5 "J44.9" "13645005"
    (by decide) (by decide) (by decide) (by decide) (by decide)

/-- C6: a provider with no controlled-substance registration number yields
exactly three identifiers — the domain id, the national-provider-id and the
state license, in that order — and no DEA-tagged identifier; a provider
carrying a (non-empty) DEA number gets a fourth, DEA-tagged identifier. -/
theorem C6_provider_identifiers (p : Provider) (r : Practitioner)
    (h : provider_to_practitioner true p = .ok r) :
    (p.dea_number = none →
      r.identifier =
        [ { system := CDES_M_SYSTEM, value := p.id,
            type := some { coding := [{ system := some CDES_M_SYSTEM, code := some "CDES-M-ID" }] } },
          { system := NPI_SYSTEM, value := p.npi,
            type := some { coding := [{
              system := some "http://terminology.hl7.org/CodeSystem/v2-0203",
              code := some "NPI",
              display := some "National Provider Identifier" }] } },
          { system := "https://license." ++ pyLower p.license_state ++ ".gov",
            value := p.license_number,
            type := some { coding := [{
              system := some "http://terminology.hl7.org/CodeSystem/v2-0203",
              code := some "MD",
              display := some "Medical License number" }] } } ] ∧
      r.identifier.length = 3 ∧
      r.identifier.filter isDeaIdent = []) ∧
    (∀ d, p.dea_number = some d → d ≠ "" →
      r.identifier.length = 4 ∧
      r.identifier.filter isDeaIdent =
        [ { system := "https://www.deadiversion.usdoj.gov", value := d,
            type := some { coding := [{
              system := some "http://terminology.hl7.org/CodeSystem/v2-0203",
              code := some "DEA",
              display := some "DEA Registration Number" }] } } ]) := by
  simp only [provider_to_practitioner, Bool.not_true, Bool.false_eq_true, if_false,
    Except.ok.injEq] at h
  subst h
  constructor
  · intro hdea
    refine ⟨by simp [hdea], by simp [hdea], ?_⟩
    simp [hdea, isDeaIdent, List.filter]
  · intro d hdea hdne
    have hdne' : d.data.isEmpty = false := by
      cases d with
      | mk l =>
          cases l with
          | nil => exact absurd rfl hdne
          | cons a as => rfl
    refine ⟨by simp [hdea, hdne'], ?_⟩
    simp [hdea, hdne', isDeaIdent, List.filter]

/-- C6 witness: the spec's end-to-end provider (npi 1234567890, Florida,
no DEA number) yields exactly three identifiers and no DEA identifier. -/
theorem C6_provider_identifiers_witness :
    pract_c6.identifier.length = 3 ∧
    pract_c6.identifier.filter isDeaIdent = [] ∧
    prov_c6.npi = "1234567890" ∧ prov_c6.license_state = "FL" :=
  have h := (C6_provider_identifiers prov_c6 pract_c6 (by decide)).1 (by decide)
  ⟨h.2.1, h.2.2, by decide, by decide⟩

/-- The boolean `Char.isDigit` test holds exactly on the ten ASCII digit
code points 48–57. -/
theorem isDigitChk (c : Char) : c.isDigit = true ↔ 48 ≤ c.toNat ∧ c.toNat ≤ 57 := by
  have h48 : (48 : UInt32).toBitVec.toNat = 48 := rfl
  have h57 : (57 : UInt32).toBitVec.toNat = 57 := rfl
  simp only [Char.isDigit, Bool.and_eq_true, decide_eq_true_eq, ge_iff_le,
    UInt32.le_def, BitVec.le_def, Char.toNat, UInt32.toNat, h48, h57]

/-- C7: with the other pattern-constrained field valid, constructing a
provider succeeds exactly when the given npi string is ten characters, all
of them ASCII digit code points (48–57). -/
theorem C7_npi_validation (id npi license_number license_state : String)
    (license_type : ProviderLicenseType) (license_expiration : String)
    (dea_number : Option String) (contact : Option Contact) (tos baa : String)
    (hstate : statePatternOk license_state = true) :
    (mkProvider id npi license_number license_state license_type
        license_expiration dea_number contact tos baa).isSome
      ↔ (npi.data.length = 10 ∧ ∀ c ∈ npi.data, 48 ≤ c.toNat ∧ c.toNat ≤ 57) := by
  have hiff : (mkProvider id npi license_number license_state license_type
      license_expiration dea_number contact tos baa).isSome
      = (npiPatternOk npi && statePatternOk license_state) := by
    unfold mkProvider
    rcases hb : (npiPatternOk npi && statePatternOk license_state) with _ | _
    · simp [hb]
    · simp [hb]
  rw [hiff, hstate, Bool.and_true]
  simp only [npiPatternOk, Bool.and_eq_true, decide_eq_true_eq, List.all_eq_true]
  refine and_congr Iff.rfl ?_
  constructor
  · intro h c hc
    exact (isDigitChk c).mp (h c hc)
  · intro h c hc
    exact (isDigitChk c).mpr (h c hc)

/-- C7 witness: the test suite's provider data — npi "1234567890" with
state "FL" — is accepted, and indeed consists of ten ASCII digits. -/
theorem C7_npi_validation_witness :
    (mkProvider "prov-7" "1234567890" "ME123456" "FL" .MD "2026-12-31"
        none none "t" "b").isSome
      ↔ (("1234567890" : String).data.length = 10 ∧
         ∀ c ∈ ("1234567890" : String).data, 48 ≤ c.toNat ∧ c.toNat ≤ 57) :=
  C7_npi_validation "prov-7" "1234567890" "ME123456" "FL" .MD "2026-12-31"
    none none "t" "b" (by decide)


/-- An `if`-guarded optional block is present exactly when its guard holds. -/
theorem isSome_if_some {α : Type} (b : Bool) (x : α) :
    (if b = true then some x else none).isSome = b := by
  cases b <;> simp

/-- An `if`-suppressed optional block is present exactly when its guard
fails. -/
theorem isSome_if_none {α : Type} (b : Bool) (x : α) :
    (if b = true then none else some x).isSome = !b := by
  cases b <;> simp

/-- C8: the medication request carries a dosage-instruction block exactly
when dosing guidance is present (in particular, no block at all when it is
absent), and likewise for the other optional sub-blocks of this mapping:
note vs rationale, dispense-request validity window vs validity dates,
reason references vs condition ids. -/
theorem C8_optional_blocks (rec : Recommendation) (pid prid : String)
    (r : MedicationRequest)
    (h : recommendation_to_medication_request true rec pid prid = .ok r) :
    (rec.dosing_guidance = none → r.dosageInstruction = none) ∧
    (r.dosageInstruction.isSome ↔ rec.dosing_guidance.isSome) ∧
    (r.note.isSome ↔ strTruthy rec.rationale = true) ∧
    (r.dispenseRequest.isSome ↔ (rec.valid_from.isSome ∨ rec.valid_until.isSome)) ∧
    (r.reasonReference.isSome ↔ rec.condition_ids ≠ []) := by
  cases hdg : rec.dosing_guidance with
  | none =>
      simp only [recommendation_to_medication_request, Bool.not_true, Bool.false_eq_true,
        if_false, hdg, Except.ok.injEq] at h
      subst h
      refine ⟨fun _ => rfl, by simp [hdg], ?_, ?_, ?_⟩
      · cases hr : rec.rationale with
        | none => simp [strTruthy, hr]
        | some rt =>
            by_cases hre : rt.data.isEmpty <;> simp [strTruthy, hr, hre]
      · simp [isSome_if_some, Bool.or_eq_true]
      · simp [isSome_if_none, List.isEmpty_iff]
  | some dg =>
      simp only [recommendation_to_medication_request, Bool.not_true, Bool.false_eq_true,
        if_false, hdg] at h
      cases hmk : mkDosage dg with
      | error e =>
          rw [hmk] at h
          exact absurd h (by simp)
      | ok d =>
          rw [hmk] at h
          simp only [Except.ok.injEq] at h
          subst h
          refine ⟨?_, by simp [hdg], ?_, ?_, ?_⟩
          · intro hc
            exact absurd hc (by simp)
          · cases hr : rec.rationale with
            | none => simp [strTruthy, hr]
            | some rt =>
                by_cases hre : rt.data.isEmpty <;> simp [strTruthy, hr, hre]
          · simp [isSome_if_some, Bool.or_eq_true]
          · simp [isSome_if_none, List.isEmpty_iff]

/-- C8 witness: the guidance-free recommendation [rec_c8] maps to a request
with no dosage-instruction block, while its rationale note and validity
window are present. -/
theorem C8_optional_blocks_witness :
    recommendation_to_medication_request true rec_c8 "pat-1" "prov-1" = .ok mr_c8 ∧
    mr_c8.dosageInstruction = none ∧
    (mr_c8.note.isSome ↔ strTruthy rec_c8.rationale = true) ∧
    (mr_c8.dispenseRequest.isSome ↔ (rec_c8.valid_from.isSome ∨ rec_c8.valid_until.isSome)) :=
  have h : recommendation_to_medication_request true rec_c8 "pat-1" "prov-1" = .ok mr_c8 := by
    decide
  have hall := C8_optional_blocks rec_c8 "pat-1" "prov-1" mr_c8 h
  ⟨h, hall.1 rfl, hall.2.2.1, hall.2.2.2.1⟩

end CdesM
